import Mathlib

/-!
Shallow embedding of the connection-guardian class `MicroserviceORM`
(koa-microservice-typeorm, src/unnamed/part_000).

Modelling conventions:
- `Date` timestamps are `Int` milliseconds (`Date.getTime()`).
- The external TypeORM world is an explicit environment: `ConnectEnv`
  gives the outcome of `createConnection` (`none` = the call throws,
  `some c` = it returns handle `c`) and of `connection.connect()`
  activation (`none` = throws, `some live` = afterwards
  `isConnected = live`).  `HealthEnv.queryRows` gives the row count of
  `connection.query(...)` (`none` = the query throws).
- JavaScript truthiness is modelled exactly: a number is truthy iff
  nonzero, a string iff nonempty, an object (array, `Date`, config
  record, connection handle) iff present (non-null / non-undefined).
- `connect`, `close`, `healthCheck`, `getConnection` are state
  transformers `State -> Env -> result x State`; `connectWith` also
  returns how many `createConnection` calls it performed, and
  `healthCheckWith` returns whether the health query was executed.
- TypeORM's `ConnectionOptions` is external to the repository; the
  guardian only ever tests it for presence, so it is embedded as
  `Option Unit`.  Logging calls (`app?.info`, `app?.error`) have no
  effect on guardian state and are omitted.
-/

/-- A TypeORM connection handle, as far as the guardian observes it:
only its `isConnected` flag. -/
structure Conn where
  isConnected : Bool
deriving DecidableEq, Repr

/-- The `type` field of `MicroserviceORMConfig`: the closed union
"mysql" | "postgres". -/
inductive DBType where
  | mysql
  | postgres
deriving DecidableEq, Repr

/-- The TypeScript union `string | string[]` used for the `slaves`
config field. -/
inductive StrOrList where
  | str (s : String)
  | list (l : List String)
deriving DecidableEq, Repr

/-- JavaScript truthiness of a `string | string[]` value: a string is
truthy iff nonempty; an array is always truthy (even `[]`). -/
def StrOrList.truthy : StrOrList → Bool
  | .str s => s ≠ ""
  | .list _ => true

/-- The `if (typeof slaves === "string") slaves = [slaves]`
normalization: a single string becomes a one-element list. -/
def StrOrList.normalize : StrOrList → List String
  | .str s => [s]
  | .list l => l

/-- The flat `MicroserviceORMConfig` record. -/
structure MicroserviceORMConfig where
  type : DBType
  master : String
  slaves : Option StrOrList
  port : Option Int
  database : Option String
  username : Option String
  password : Option String
deriving DecidableEq, Repr

/-- The `MicroserviceORMOptions` constructor-options record. -/
structure MicroserviceORMOptions where
  connectionName : Option String
  connectionOptions : Option Unit
  connectionRequired : Option Bool
  unhealthyWithoutConnection : Option Bool
  connectionAttemptInterval : Option Int
  healthCheckQuery : Option String
  healthCheckInterval : Option Int
  config : Option MicroserviceORMConfig
deriving DecidableEq, Repr

/-- The mutable state of a `MicroserviceORM` instance (its fields,
minus the host `app` reference, which only receives log lines and
hook registrations). -/
structure MicroserviceORM where
  connection : Option Conn
  config : Option MicroserviceORMConfig
  connectionRequired : Bool
  unhealthyWithoutConnection : Bool
  connectionAttemptInterval : Int
  healthCheckQuery : String
  healthCheckInterval : Int
  lastConnectionAttempt : Option Int
  lastHealthCheck : Option Int
  lastHealthCheckResult : Option Bool
  connectionOptions : Option Unit
  connectionName : Option String
deriving DecidableEq, Repr

/-- The constructor `new MicroserviceORM(app?, opts?)`.  Field defaults
come from the class-field initializers; `connectionRequired` and
`unhealthyWithoutConnection` are adopted on an explicit
`!== undefined` test, while `connectionAttemptInterval` and
`healthCheckQuery` are adopted only when truthy.  No line of the
constructor reads `opts.healthCheckInterval`. -/
def mkMicroserviceORM (opts : Option MicroserviceORMOptions) : MicroserviceORM :=
  { connection := none
    config := opts.bind (fun o => o.config)
    connectionRequired :=
      match opts.bind (fun o => o.connectionRequired) with
      | some b => b
      | none => true
    unhealthyWithoutConnection :=
      match opts.bind (fun o => o.unhealthyWithoutConnection) with
      | some b => b
      | none => true
    connectionAttemptInterval :=
      match opts.bind (fun o => o.connectionAttemptInterval) with
      | some n => if n = 0 then 15000 else n
      | none => 15000
    healthCheckQuery :=
      match opts.bind (fun o => o.healthCheckQuery) with
      | some q => if q = "" then "SELECT 1" else q
      | none => "SELECT 1"
    healthCheckInterval := 15000
    lastConnectionAttempt := none
    lastHealthCheck := none
    lastHealthCheckResult := none
    connectionOptions := opts.bind (fun o => o.connectionOptions)
    connectionName := opts.bind (fun o => o.connectionName) }

/-- Environment for one `connect()` call: the outcome of the (single)
`createConnection` call it may make, and of the
`this.connection.connect()` activation it may make.  `none` models the
call throwing. -/
structure ConnectEnv where
  create : Option Conn
  activate : Option Bool
deriving DecidableEq, Repr

/-- The `connect()` method.  Returns (boolean result, new state, number
of `createConnection` calls performed).  Mirrors the source line by
line: an already-live handle short-circuits; otherwise at most one
`createConnection` runs (the three guarded branches are mutually
exclusive at runtime), a non-live handle is activated, and the `catch`
block converts any thrown error into
`connectionRequired ? false : true`. -/
def connectWith (s : MicroserviceORM) (env : ConnectEnv) :
    Bool × MicroserviceORM × Nat :=
  match s.connection with
  | some c =>
    if c.isConnected then
      (true, s, 0)
    else
      match env.activate with
      | none => (if s.connectionRequired then false else true, s, 0)
      | some live =>
        (if s.connectionRequired then live else true,
         { s with connection := some { isConnected := live } }, 0)
  | none =>
    match env.create with
    | none => (if s.connectionRequired then false else true, s, 1)
    | some c =>
      if c.isConnected then
        (if s.connectionRequired then true else true,
         { s with connection := some c }, 1)
      else
        match env.activate with
        | none =>
          (if s.connectionRequired then false else true,
           { s with connection := some c }, 1)
        | some live =>
          (if s.connectionRequired then live else true,
           { s with connection := some { isConnected := live } }, 1)

/-- Which environments make the `try` block of `connect()` throw: the
`createConnection` call throws, or the activation `connect()` call
runs and throws.  (An already-live handle reaches neither call.) -/
def connectThrows (s : MicroserviceORM) (env : ConnectEnv) : Bool :=
  match s.connection with
  | some c => if c.isConnected then false else env.activate.isNone
  | none =>
    match env.create with
    | none => true
    | some c => if c.isConnected then false else env.activate.isNone

/-- The `close()` method.  `afterCloseLive` is the handle's
`isConnected` flag after the underlying `connection.close()` call
(normally `false`).  Note the source never assigns
`this.connection = null`. -/
def closeWith (s : MicroserviceORM) (afterCloseLive : Bool) :
    Bool × MicroserviceORM :=
  match s.connection with
  | none => (true, s)
  | some c =>
    if c.isConnected = false then
      (true, s)
    else
      (if afterCloseLive then false else true,
       { s with connection := some { isConnected := afterCloseLive } })

/-- Environment for one `healthCheck()` call: the two `new Date()`
timestamps it may take (`now1` at the cache-freshness test, `now2` in
the `finally` block), the environment of its inner `connect()` call,
and the outcome of the health query (`none` = throws, `some n` = an
array of `n` rows). -/
structure HealthEnv where
  now1 : Int
  connectEnv : ConnectEnv
  queryRows : Option Nat
  now2 : Int
deriving DecidableEq, Repr

/-- The cache-freshness test of `healthCheck()`, exactly as written:
`if (this._lastHealthCheck && this._lastHealthCheckResult)` — a JS
truthiness test, so the cached boolean must be `true` — followed by
`_lastHealthCheck.getTime() >= now - healthCheckInterval` (boundary
inclusive). -/
def cacheServed (s : MicroserviceORM) (now1 : Int) : Bool :=
  match s.lastHealthCheck, s.lastHealthCheckResult with
  | some t, some r => r && decide (t ≥ now1 - s.healthCheckInterval)
  | _, _ => false

/-- Does the guardian currently hold a live connection
(`this.connection && this.connection.isConnected`)? -/
def liveConn (s : MicroserviceORM) : Bool :=
  match s.connection with
  | some c => c.isConnected
  | none => false

/-- The boolean computed from the health query: `check.length > 0`,
with any thrown error giving `false`. -/
def queryResult (env : HealthEnv) : Bool :=
  match env.queryRows with
  | some n => decide (n > 0)
  | none => false

/-- The `healthCheck()` method.  Returns (boolean result, new state,
whether the health query was executed).  The opt-out returns `true`
untouched; a served cache hit returns the stored result (necessarily
`true`, by the truthiness test) without work; otherwise `connect()`
runs, a missing/non-live connection returns `false` immediately
(before the `try`/`finally`, so without touching the cache), and the
query path stores `(now2, result)` in the `finally` block. -/
def healthCheckWith (s : MicroserviceORM) (env : HealthEnv) :
    Bool × MicroserviceORM × Bool :=
  if s.unhealthyWithoutConnection = false then
    (true, s, false)
  else if cacheServed s env.now1 then
    (s.lastHealthCheckResult.getD false, s, false)
  else
    let s1 := (connectWith s env.connectEnv).2.1
    if liveConn s1 then
      let result := queryResult env
      (result,
       { s1 with lastHealthCheck := some env.now2
                 lastHealthCheckResult := some result }, true)
    else
      (false, s1, false)

/-- The static `cli`/`entities`/`subscribers`/`migrations` part of the
`output` object of `buildConnectionOptions`, plus the resolved `type`. -/
structure OutputBase where
  cliEntitiesDir : String
  cliMigrationsDir : String
  cliSubscribersDir : String
  entities : List String
  subscribers : List String
  migrations : List String
  type : DBType
deriving DecidableEq, Repr

/-- The `details` object: shared credential/connection parameters
spread into every endpoint. -/
structure ConnDetails where
  port : Int
  username : Option String
  password : Option String
  database : Option String
deriving DecidableEq, Repr

/-- An endpoint object `{host, ...details}`. -/
structure Endpoint where
  host : String
  port : Int
  username : Option String
  password : Option String
  database : Option String
deriving DecidableEq, Repr

/-- Spreading `details` behind a host: `{host: h, ...d}`. -/
def mkEndpoint (h : String) (d : ConnDetails) : Endpoint :=
  { host := h, port := d.port, username := d.username,
    password := d.password, database := d.database }

/-- The shape of the value `buildConnectionOptions` returns: either
flat single-host options `{host, ...output, ...details}` or
replication options `{...output, replication: {master, slaves}}`. -/
inductive BuiltOptions where
  | single (base : OutputBase) (endpoint : Endpoint)
  | replication (base : OutputBase) (master : Endpoint)
      (slaves : List Endpoint)
deriving DecidableEq, Repr

/-- JavaScript `a || b` for two optional strings: yields `a`'s value
when it is truthy (nonempty), otherwise `b` as-is. -/
def strOr2 (a b : Option String) : Option String :=
  match a with
  | some x => if x = "" then b else some x
  | none => b

/-- JavaScript `a || b || c` for optional strings over a string
fallback. -/
def strOr3 (a b : Option String) (c : String) : String :=
  match strOr2 a b with
  | some x => if x = "" then c else x
  | none => c

/-- JavaScript `b || c` for an optional number over a numeric
fallback (`0` is falsy). -/
def intOr2 (b : Option Int) (c : Int) : Int :=
  match b with
  | some x => if x = 0 then c else x
  | none => c

/-- JavaScript `a || b || c` for optional numbers over a numeric
fallback. -/
def intOr3 (a b : Option Int) (c : Int) : Int :=
  match a with
  | some x => if x = 0 then intOr2 b c else x
  | none => intOr2 b c

/-- JavaScript `config?.type || this.config?.type || 'mysql'`: the
`type` field is the union "mysql" | "postgres", both truthy strings,
so a present layer always wins. -/
def typeOr (a b : Option DBType) : DBType :=
  match a with
  | some t => t
  | none =>
    match b with
    | some t => t
    | none => .mysql

/-- JavaScript `b || []` for the `slaves` field. -/
def slavesOrD (b : Option StrOrList) : StrOrList :=
  match b with
  | some v => if v.truthy then v else .list []
  | none => .list []

/-- JavaScript `config?.slaves || this.config?.slaves || []`. -/
def slavesOr (a b : Option StrOrList) : StrOrList :=
  match a with
  | some v => if v.truthy then v else slavesOrD b
  | none => slavesOrD b

/-- The resolved backend type of `buildConnectionOptions`. -/
def typeOf (s : MicroserviceORM) (config : Option MicroserviceORMConfig) :
    DBType :=
  typeOr (config.map (fun c => c.type)) (s.config.map (fun c => c.type))

/-- The `details` object of `buildConnectionOptions`: each field is a
`||` chain over per-call config, stored config and (for `port`) the
hard-coded 3306. -/
def detailsOf (s : MicroserviceORM) (config : Option MicroserviceORMConfig) :
    ConnDetails :=
  { port := intOr3 (config.bind (fun c => c.port))
      (s.config.bind (fun c => c.port)) 3306
    username := strOr2 (config.bind (fun c => c.username))
      (s.config.bind (fun c => c.username))
    password := strOr2 (config.bind (fun c => c.password))
      (s.config.bind (fun c => c.password))
    database := strOr2 (config.bind (fun c => c.database))
      (s.config.bind (fun c => c.database)) }

/-- The resolved `master` host of `buildConnectionOptions`. -/
def masterHost (s : MicroserviceORM)
    (config : Option MicroserviceORMConfig) : String :=
  strOr3 (config.map (fun c => c.master)) (s.config.map (fun c => c.master))
    "127.0.0.1"

/-- The `slaves` list after the `||` chain and the single-string
normalization. -/
def normalizedSlaves (s : MicroserviceORM)
    (config : Option MicroserviceORMConfig) : List String :=
  (slavesOr (config.bind (fun c => c.slaves))
    (s.config.bind (fun c => c.slaves))).normalize

/-- The `output` object of `buildConnectionOptions` (static paths plus
the resolved type). -/
def outputBase (s : MicroserviceORM)
    (config : Option MicroserviceORMConfig) : OutputBase :=
  { cliEntitiesDir := "./src/entity"
    cliMigrationsDir := "./src/migration"
    cliSubscribersDir := "./src/subscriber"
    entities := ["./build/entity/*.js", "./build/entity/**/*.js"]
    subscribers := ["./build/subscriber/*.js", "./build/subscriber/**/*.js"]
    migrations := ["./build/migration/*.js"]
    type := typeOf s config }

/-- The `buildConnectionOptions(config?)` method: single-host options
when the normalized replica list is empty, replication options (one
endpoint per replica, in order, each spreading the same `details`)
otherwise. -/
def buildConnectionOptions (s : MicroserviceORM)
    (config : Option MicroserviceORMConfig) : BuiltOptions :=
  let slaves := normalizedSlaves s config
  if slaves.length = 0 then
    .single (outputBase s config)
      (mkEndpoint (masterHost s config) (detailsOf s config))
  else
    .replication (outputBase s config)
      (mkEndpoint (masterHost s config) (detailsOf s config))
      (slaves.map (fun sl => mkEndpoint sl (detailsOf s config)))

/-- The ensure step of `getConnection()`: the state after the
`if (!this.connection || !this.connection.isConnected) await
this.connect()` line. -/
def gcEnsure (s : MicroserviceORM) (cenv : ConnectEnv) :
    MicroserviceORM :=
  match s.connection with
  | none => (connectWith s cenv).2.1
  | some c => if c.isConnected then s else (connectWith s cenv).2.1

/-- The `getConnection()` accessor: after the ensure step, hand out
the live handle if there is one, otherwise fall back to the ambient
TypeORM `getConnection(name?)` registry lookup; `registry` is that
lookup's result (`none` = it throws / finds nothing). -/
def getConnectionWith (s : MicroserviceORM) (cenv : ConnectEnv)
    (registry : Option Conn) : Option Conn × MicroserviceORM :=
  match (gcEnsure s cenv).connection with
  | some c =>
    if c.isConnected then (some c, gcEnsure s cenv)
    else (registry, gcEnsure s cenv)
  | none => (registry, gcEnsure s cenv)

/-- The health-cache coherence invariant: the timestamp is absent iff
the result is absent. -/
def cacheConsistent (s : MicroserviceORM) : Prop :=
  s.lastHealthCheck.isNone = s.lastHealthCheckResult.isNone

/-- A freshly constructed guardian (all defaults, no options). -/
def s0 : MicroserviceORM := mkMicroserviceORM none

/-- A live connection handle. -/
def connLive : Conn := { isConnected := true }

/-- A guardian holding a live connection. -/
def sLive : MicroserviceORM := { s0 with connection := some connLive }

/-- A guardian with the health-gating feature opted out. -/
def sOptOut : MicroserviceORM :=
  { s0 with unhealthyWithoutConnection := false }

/-- A guardian with `connectionRequired` disabled. -/
def sNoReq : MicroserviceORM := { s0 with connectionRequired := false }

/-- A backend environment in which every call throws. -/
def envNoBackend : ConnectEnv := { create := none, activate := none }

/-- A backend environment in which `createConnection` returns a live
handle. -/
def envCreateLive : ConnectEnv :=
  { create := some connLive, activate := none }

/-- A health-check environment at time 100000 with a failing backend
and a one-row query answer. -/
def hcEnvDown : HealthEnv :=
  { now1 := 100000, connectEnv := envNoBackend,
    queryRows := some 1, now2 := 100001 }

/-- A guardian with a live connection and a cached negative health
result taken at time 100000 (well within a 15000 ms interval of
`hcEnvDown.now1`). -/
def sCachedFalse : MicroserviceORM :=
  { s0 with
    connection := some connLive
    lastHealthCheck := some 100000
    lastHealthCheckResult := some false }

/-- A guardian with a cached positive health result taken exactly at
the inclusive freshness boundary `now1 - healthCheckInterval =
100000 - 15000`. -/
def sCachedTrueBoundary : MicroserviceORM :=
  { s0 with
    lastHealthCheck := some 85000
    lastHealthCheckResult := some true }

/-- A stored default config: postgres on port 5432. -/
def storedCfg : MicroserviceORMConfig :=
  { type := .postgres, master := "stored-db", slaves := none,
    port := some 5432, database := some "appdb", username := some "su",
    password := some "sp" }

/-- A guardian whose stored default config is `storedCfg`. -/
def sStored : MicroserviceORM := { s0 with config := some storedCfg }

/-- A per-call config that sets `port` to the falsy value `0`. -/
def callCfgPortZero : MicroserviceORMConfig :=
  { type := .mysql, master := "db1", slaves := none, port := some 0,
    database := none, username := none, password := none }

/-- A per-call config whose `slaves` field is the single (falsy) empty
string. -/
def callCfgEmptySlave : MicroserviceORMConfig :=
  { type := .mysql, master := "db1", slaves := some (.str ""),
    port := none, database := none, username := none, password := none }

/-- The replication scenario config of the spec: master db1, replicas
db2 and db3, shared credentials. -/
def replCfg : MicroserviceORMConfig :=
  { type := .mysql, master := "db1",
    slaves := some (.list ["db2", "db3"]), port := some 3306,
    database := some "app", username := some "u", password := some "p" }

/-- An options record exercising every constructor edge case at once:
falsy interval and query values, explicit `false` booleans, and a
`healthCheckInterval` that the constructor never reads. -/
def optsIntervalOnly : MicroserviceORMOptions :=
  { connectionName := none, connectionOptions := none,
    connectionRequired := some false,
    unhealthyWithoutConnection := some false,
    connectionAttemptInterval := some 0, healthCheckQuery := some "",
    healthCheckInterval := some 60000, config := none }

/-- No branch of `connect()` writes the health-cache fields. -/
theorem connectWith_preserves_cache (s : MicroserviceORM)
    (env : ConnectEnv) :
    ((connectWith s env).2.1).lastHealthCheck = s.lastHealthCheck ∧
    ((connectWith s env).2.1).lastHealthCheckResult =
      s.lastHealthCheckResult := by
  unfold connectWith
  rcases s.connection with _ | c
  · rcases env.create with _ | d
    · simp
    · cases hd : d.isConnected <;> rcases env.activate with _ | l <;>
        simp [hd]
  · cases hc : c.isConnected <;> rcases env.activate with _ | l <;>
      simp [hc]

/-- Branch equation for `connect()`: already-live handle. -/
theorem connectWith_live (s : MicroserviceORM) (env : ConnectEnv)
    (c : Conn) (h : s.connection = some c) (hc : c.isConnected = true) :
    connectWith s env = (true, s, 0) := by
  unfold connectWith
  rw [h]
  simp [hc]

/-- Branch equation for `connect()`: stale handle, activation throws. -/
theorem connectWith_stale_actThrows (s : MicroserviceORM)
    (env : ConnectEnv) (c : Conn) (h : s.connection = some c)
    (hc : c.isConnected = false) (ha : env.activate = none) :
    connectWith s env =
      ((if s.connectionRequired then false else true), s, 0) := by
  unfold connectWith
  rw [h, ha]
  simp [hc]

/-- Branch equation for `connect()`: stale handle, activation returns
liveness `l`. -/
theorem connectWith_stale_act (s : MicroserviceORM) (env : ConnectEnv)
    (c : Conn) (l : Bool) (h : s.connection = some c)
    (hc : c.isConnected = false) (ha : env.activate = some l) :
    connectWith s env =
      ((if s.connectionRequired then l else true),
       { s with connection := some { isConnected := l } }, 0) := by
  unfold connectWith
  rw [h, ha]
  simp [hc]

/-- Branch equation for `connect()`: no handle, `createConnection`
throws. -/
theorem connectWith_createThrows (s : MicroserviceORM)
    (env : ConnectEnv) (h : s.connection = none)
    (hcr : env.create = none) :
    connectWith s env =
      ((if s.connectionRequired then false else true), s, 1) := by
  unfold connectWith
  rw [h, hcr]

/-- Branch equation for `connect()`: no handle, `createConnection`
returns a live handle. -/
theorem connectWith_createLive (s : MicroserviceORM) (env : ConnectEnv)
    (d : Conn) (h : s.connection = none) (hcr : env.create = some d)
    (hd : d.isConnected = true) :
    connectWith s env =
      ((if s.connectionRequired then true else true),
       { s with connection := some d }, 1) := by
  unfold connectWith
  rw [h, hcr]
  simp [hd]

/-- Branch equation for `connect()`: no handle, `createConnection`
returns a non-live handle, activation throws. -/
theorem connectWith_createStale_actThrows (s : MicroserviceORM)
    (env : ConnectEnv) (d : Conn) (h : s.connection = none)
    (hcr : env.create = some d) (hd : d.isConnected = false)
    (ha : env.activate = none) :
    connectWith s env =
      ((if s.connectionRequired then false else true),
       { s with connection := some d }, 1) := by
  unfold connectWith
  rw [h, hcr, ha]
  simp [hd]

/-- Branch equation for `connect()`: no handle, `createConnection`
returns a non-live handle, activation returns liveness `l`. -/
theorem connectWith_createStale_act (s : MicroserviceORM)
    (env : ConnectEnv) (d : Conn) (l : Bool) (h : s.connection = none)
    (hcr : env.create = some d) (hd : d.isConnected = false)
    (ha : env.activate = some l) :
    connectWith s env =
      ((if s.connectionRequired then l else true),
       { s with connection := some { isConnected := l } }, 1) := by
  unfold connectWith
  rw [h, hcr, ha]
  simp [hd]

/-- C3: `connect()` never propagates a backend exception: on every
environment in which the establishment or activation call throws, the
`catch` block yields `false` when `connectionRequired` is true and
`true` when it is false. -/
theorem connect_swallows_errors (s : MicroserviceORM) (env : ConnectEnv)
    (h : connectThrows s env = true) :
    (s.connectionRequired = true → (connectWith s env).1 = false) ∧
    (s.connectionRequired = false → (connectWith s env).1 = true) := by
  unfold connectThrows at h
  rcases hconn : s.connection with _ | c
  · rw [hconn] at h
    rcases hcr : env.create with _ | d
    · rw [connectWith_createThrows s env hconn hcr]
      constructor <;> intro hr <;> simp [hr]
    · rw [hcr] at h
      rcases hd : d.isConnected
      · rcases ha : env.activate with _ | l
        · rw [connectWith_createStale_actThrows s env d hconn hcr hd ha]
          constructor <;> intro hr <;> simp [hr]
        · simp [hd, ha] at h
      · simp [hd] at h
  · rw [hconn] at h
    rcases hc : c.isConnected
    · rcases ha : env.activate with _ | l
      · rw [connectWith_stale_actThrows s env c hconn hc ha]
        constructor <;> intro hr <;> simp [hr]
      · simp [hc, ha] at h
    · simp [hc] at h

theorem connect_swallows_errors_witness :
    connectThrows s0 envNoBackend = true ∧
    (connectWith s0 envNoBackend).1 = false ∧
    (connectWith sNoReq envNoBackend).1 = true :=
  ⟨rfl, (connect_swallows_errors s0 envNoBackend rfl).1 rfl,
    (connect_swallows_errors sNoReq envNoBackend rfl).2 rfl⟩

/-- C6: `connect()` is idempotent with respect to an established
connection: starting with no handle, if the first call leaves a live
connection then it returned success having made exactly one
establishment call, and a second call returns success immediately,
changing nothing and making zero establishment calls. -/
theorem connect_idempotent (s : MicroserviceORM) (env1 env2 : ConnectEnv)
    (h0 : s.connection = none)
    (hlive : liveConn (connectWith s env1).2.1 = true) :
    (connectWith s env1).1 = true ∧
    (connectWith s env1).2.2 = 1 ∧
    connectWith (connectWith s env1).2.1 env2 =
      (true, (connectWith s env1).2.1, 0) := by
  rcases hcr : env1.create with _ | d
  · rw [connectWith_createThrows s env1 h0 hcr] at hlive
    unfold liveConn at hlive
    rw [h0] at hlive
    simp at hlive
  · rcases hd : d.isConnected
    · rcases ha : env1.activate with _ | l
      · rw [connectWith_createStale_actThrows s env1 d h0 hcr hd ha]
          at hlive
        unfold liveConn at hlive
        simp [hd] at hlive
      · rw [connectWith_createStale_act s env1 d l h0 hcr hd ha] at hlive
        unfold liveConn at hlive
        simp at hlive
        rw [connectWith_createStale_act s env1 d l h0 hcr hd ha, hlive]
        refine ⟨by simp, rfl, ?_⟩
        rw [connectWith_live _ env2 { isConnected := true } rfl rfl]
    · rw [connectWith_createLive s env1 d h0 hcr hd]
      refine ⟨by simp, rfl, ?_⟩
      rw [connectWith_live _ env2 d rfl hd]

theorem connect_idempotent_witness :
    (connectWith s0 envCreateLive).1 = true ∧
    (connectWith s0 envCreateLive).2.2 = 1 ∧
    connectWith (connectWith s0 envCreateLive).2.1 envNoBackend =
      (true, (connectWith s0 envCreateLive).2.1, 0) :=
  connect_idempotent s0 envCreateLive envNoBackend rfl rfl

/-- C7: with `unhealthyWithoutConnection` false, `healthCheck()`
returns true immediately — even with no connection established — and
leaves the whole guardian state (connection handle and both cache
fields included) untouched, executing no query. -/
theorem healthCheck_optOut (s : MicroserviceORM) (env : HealthEnv)
    (h : s.unhealthyWithoutConnection = false) :
    healthCheckWith s env = (true, s, false) := by
  unfold healthCheckWith
  rw [h]
  simp

theorem healthCheck_optOut_witness :
    sOptOut.connection = none ∧
    healthCheckWith sOptOut hcEnvDown = (true, sOptOut, false) :=
  ⟨rfl, healthCheck_optOut sOptOut hcEnvDown rfl⟩

/-- C8 counterexample: after an explicit, successful `close()` on a
live connection the stored handle does NOT transition Some→None: the
field still holds the (now inactive) handle, because the source never
assigns `this.connection = null`. -/
theorem close_handle_stays_some :
    closeWith sLive false =
      (true, { sLive with connection := some { isConnected := false } }) ∧
    ((closeWith sLive false).2.connection).isSome = true :=
  ⟨rfl, rfl⟩

/-- C8 (amended): `close()` is a no-op returning success when no handle
exists or the handle is inactive; otherwise it issues a close and
returns success exactly when the handle is confirmed inactive
afterward — and in every case the stored handle field keeps its
`Option` shape: it is never cleared to `none` by `close()`. -/
theorem close_spec (s : MicroserviceORM) (afterCloseLive : Bool) :
    (s.connection = none → closeWith s afterCloseLive = (true, s)) ∧
    (∀ c, s.connection = some c → c.isConnected = false →
      closeWith s afterCloseLive = (true, s)) ∧
    (∀ c, s.connection = some c → c.isConnected = true →
      closeWith s afterCloseLive =
        ((if afterCloseLive then false else true),
         { s with connection := some { isConnected := afterCloseLive } }) ∧
      ((closeWith s afterCloseLive).2.connection).isSome = true) := by
  refine ⟨?_, ?_, ?_⟩
  · intro h
    unfold closeWith
    rw [h]
  · intro c h hc
    unfold closeWith
    rw [h]
    simp [hc]
  · intro c h hc
    unfold closeWith
    rw [h]
    simp [hc]

theorem close_spec_witness :
    closeWith s0 false = (true, s0) ∧
    closeWith sLive false =
      (true, { sLive with connection := some { isConnected := false } }) ∧
    ((closeWith sLive false).2.connection).isSome = true :=
  ⟨(close_spec s0 false).1 rfl,
    ((close_spec sLive false).2.2 connLive rfl rfl).1,
    ((close_spec sLive false).2.2 connLive rfl rfl).2⟩

/-- The freshness test succeeds when the cached result is `true` and
the timestamp is within the (inclusive) interval. -/
theorem cacheServed_of_true (s : MicroserviceORM) (now1 t : Int)
    (ht : s.lastHealthCheck = some t)
    (hr : s.lastHealthCheckResult = some true)
    (hin : t ≥ now1 - s.healthCheckInterval) :
    cacheServed s now1 = true := by
  unfold cacheServed
  rw [ht, hr]
  simp [hin]

/-- The freshness test fails when the cached `true` result is older
than the interval. -/
theorem cacheServed_false_of_stale (s : MicroserviceORM) (now1 t : Int)
    (ht : s.lastHealthCheck = some t)
    (hr : s.lastHealthCheckResult = some true)
    (hout : t < now1 - s.healthCheckInterval) :
    cacheServed s now1 = false := by
  unfold cacheServed
  rw [ht, hr]
  simp
  omega

/-- The freshness test fails outright whenever the cached result is
`false`, however recent the timestamp: the source tests the boolean
for truthiness, not for presence. -/
theorem cacheServed_false_of_falseResult (s : MicroserviceORM)
    (now1 : Int) (hr : s.lastHealthCheckResult = some false) :
    cacheServed s now1 = false := by
  unfold cacheServed
  rw [hr]
  rcases ht : s.lastHealthCheck with _ | t <;> simp

/-- C1 counterexample: with a cached `false` health result whose
timestamp equals now (well within any positive interval),
`healthCheck()` does NOT return the cached value without re-executing
the check: the truthiness test skips the cache, the query runs again
(third component `true`), and the call returns the fresh `true`
instead of the cached `false`. -/
theorem healthCheck_cachedFalse_not_served :
    sCachedFalse.lastHealthCheckResult = some false ∧
    sCachedFalse.lastHealthCheck = some hcEnvDown.now1 ∧
    sCachedFalse.unhealthyWithoutConnection = true ∧
    healthCheckWith sCachedFalse hcEnvDown =
      (true,
       { sCachedFalse with
         lastHealthCheck := some 100001
         lastHealthCheckResult := some true }, true) :=
  ⟨rfl, rfl, rfl, rfl⟩

/-- C1 (amended): with `unhealthyWithoutConnection` true, the health
cache is served only when the cached result is `true`: a fresh cached
`true` (timestamp within `healthCheckInterval` of now, boundary
inclusive) is returned unchanged with no query and no state change; a
stale cached `true` re-executes the check; and a cached `false` is
never served — the check re-executes even inside the interval. -/
theorem healthCheck_cache_semantics (s : MicroserviceORM)
    (env : HealthEnv) (t : Int)
    (hu : s.unhealthyWithoutConnection = true) :
    (s.lastHealthCheck = some t → s.lastHealthCheckResult = some true →
      t ≥ env.now1 - s.healthCheckInterval →
      healthCheckWith s env = (true, s, false)) ∧
    (s.lastHealthCheck = some t → s.lastHealthCheckResult = some true →
      t < env.now1 - s.healthCheckInterval →
      liveConn (connectWith s env.connectEnv).2.1 = true →
      (healthCheckWith s env).2.2 = true) ∧
    (s.lastHealthCheckResult = some false →
      liveConn (connectWith s env.connectEnv).2.1 = true →
      (healthCheckWith s env).2.2 = true) := by
  refine ⟨?_, ?_, ?_⟩
  · intro ht hr hin
    have hs := cacheServed_of_true s env.now1 t ht hr hin
    unfold healthCheckWith
    rw [hu, hs, hr]
    simp
  · intro ht hr hout hlive
    have hs := cacheServed_false_of_stale s env.now1 t ht hr hout
    unfold healthCheckWith
    rw [hu, hs]
    simp [hlive]
  · intro hr hlive
    have hs := cacheServed_false_of_falseResult s env.now1 hr
    unfold healthCheckWith
    rw [hu, hs]
    simp [hlive]

theorem healthCheck_cache_semantics_witness :
    healthCheckWith sCachedTrueBoundary hcEnvDown =
      (true, sCachedTrueBoundary, false) :=
  (healthCheck_cache_semantics sCachedTrueBoundary hcEnvDown 85000
    rfl).1 rfl rfl (by decide)

/-- C2 counterexample: a `healthCheck()` call that proceeds past the
cache-freshness check (no cached entry at all here) but finds no live
connection after the connect attempt returns `false` WITHOUT updating
either cache field: both are still `none` afterwards, not
`some now`. -/
theorem healthCheck_noLiveConn_cache_untouched :
    s0.unhealthyWithoutConnection = true ∧
    cacheServed s0 hcEnvDown.now1 = false ∧
    healthCheckWith s0 hcEnvDown = (false, s0, false) ∧
    (healthCheckWith s0 hcEnvDown).2.1.lastHealthCheck = none ∧
    (healthCheckWith s0 hcEnvDown).2.1.lastHealthCheckResult = none :=
  ⟨rfl, rfl, rfl, rfl, rfl⟩

/-- C2 (amended): a `healthCheck()` invocation that proceeds past the
cache-freshness check updates both cache fields (timestamp = now,
result = the computed value) before returning on the query paths —
both the successful-query path and the query-error path — but the
path that returns `false` because no live connection exists after the
connect attempt returns early, leaving both cache fields exactly as
they were. -/
theorem healthCheck_cache_update_paths (s : MicroserviceORM)
    (env : HealthEnv) (hu : s.unhealthyWithoutConnection = true)
    (hmiss : cacheServed s env.now1 = false) :
    (liveConn (connectWith s env.connectEnv).2.1 = true →
      (healthCheckWith s env).2.1.lastHealthCheck = some env.now2 ∧
      (healthCheckWith s env).2.1.lastHealthCheckResult =
        some (queryResult env) ∧
      (healthCheckWith s env).1 = queryResult env) ∧
    (liveConn (connectWith s env.connectEnv).2.1 = false →
      (healthCheckWith s env).1 = false ∧
      (healthCheckWith s env).2.1.lastHealthCheck = s.lastHealthCheck ∧
      (healthCheckWith s env).2.1.lastHealthCheckResult =
        s.lastHealthCheckResult) := by
  have hpres := connectWith_preserves_cache s env.connectEnv
  unfold healthCheckWith
  rw [hu, hmiss]
  constructor
  · intro hlive
    simp [hlive]
  · intro hdead
    simp [hdead, hpres.1, hpres.2]

theorem healthCheck_cache_update_paths_witness :
    (healthCheckWith sLive hcEnvDown).2.1.lastHealthCheck =
      some 100001 ∧
    (healthCheckWith sLive hcEnvDown).2.1.lastHealthCheckResult =
      some (queryResult hcEnvDown) ∧
    (healthCheckWith sLive hcEnvDown).1 = queryResult hcEnvDown :=
  (healthCheck_cache_update_paths sLive hcEnvDown rfl rfl).1 rfl

/-- No branch of `close()` writes the health-cache fields. -/
theorem closeWith_preserves_cache (s : MicroserviceORM) (b : Bool) :
    ((closeWith s b).2).lastHealthCheck = s.lastHealthCheck ∧
    ((closeWith s b).2).lastHealthCheckResult =
      s.lastHealthCheckResult := by
  unfold closeWith
  rcases s.connection with _ | c
  · simp
  · cases hc : c.isConnected <;> simp [hc]

/-- The state `getConnection()` leaves behind is the ensure-step
state, whichever way the handle is handed out. -/
theorem getConnectionWith_state (s : MicroserviceORM)
    (cenv : ConnectEnv) (reg : Option Conn) :
    (getConnectionWith s cenv reg).2 = gcEnsure s cenv := by
  unfold getConnectionWith
  rcases h1 : (gcEnsure s cenv).connection with _ | d
  · rfl
  · cases hd : d.isConnected <;> simp [hd]

/-- The ensure step either leaves the state alone or is one
`connect()` call. -/
theorem gcEnsure_cases (s : MicroserviceORM) (cenv : ConnectEnv) :
    gcEnsure s cenv = s ∨ gcEnsure s cenv = (connectWith s cenv).2.1 := by
  unfold gcEnsure
  rcases hconn : s.connection with _ | c
  · right
    rfl
  · cases hc : c.isConnected
    · right
      simp [hc]
    · left
      simp [hc]

/-- `healthCheck()` either leaves both cache fields exactly as they
were, or writes both at once: the timestamp becomes the `finally`
block's `new Date()` and the result becomes the value the call
returns. -/
theorem healthCheckWith_cache_shape (s : MicroserviceORM)
    (henv : HealthEnv) :
    ((healthCheckWith s henv).2.1.lastHealthCheck = s.lastHealthCheck ∧
     (healthCheckWith s henv).2.1.lastHealthCheckResult =
       s.lastHealthCheckResult) ∨
    ((healthCheckWith s henv).2.1.lastHealthCheck = some henv.now2 ∧
     (healthCheckWith s henv).2.1.lastHealthCheckResult =
       some (healthCheckWith s henv).1) := by
  unfold healthCheckWith
  rcases hu : s.unhealthyWithoutConnection
  · left
    simp
  · rcases hcs : cacheServed s henv.now1
    · rcases hl : liveConn (connectWith s henv.connectEnv).2.1
      · have hp := connectWith_preserves_cache s henv.connectEnv
        left
        simp [hl, hp.1, hp.2]
      · right
        simp [hl]
    · left
      simp

/-- C9: the health-cache fields are written only together.  The
constructor establishes the coherence invariant (timestamp absent iff
result absent); each of `connect()`, `close()`, `healthCheck()` and
`getConnection()` preserves it; and the only writer, `healthCheck()`,
either leaves both fields unchanged or sets both at once to the same
completed check (timestamp = the check's `new Date()`, result = the
value that check returned). -/
theorem cache_invariant_preserved (s : MicroserviceORM)
    (opts : Option MicroserviceORMOptions) (cenv : ConnectEnv)
    (b : Bool) (henv : HealthEnv) (reg : Option Conn)
    (h : cacheConsistent s) :
    cacheConsistent (mkMicroserviceORM opts) ∧
    cacheConsistent (connectWith s cenv).2.1 ∧
    cacheConsistent (closeWith s b).2 ∧
    cacheConsistent (healthCheckWith s henv).2.1 ∧
    cacheConsistent (getConnectionWith s cenv reg).2 ∧
    (((healthCheckWith s henv).2.1.lastHealthCheck = s.lastHealthCheck ∧
      (healthCheckWith s henv).2.1.lastHealthCheckResult =
        s.lastHealthCheckResult) ∨
     ((healthCheckWith s henv).2.1.lastHealthCheck = some henv.now2 ∧
      (healthCheckWith s henv).2.1.lastHealthCheckResult =
        some (healthCheckWith s henv).1)) := by
  have hc1 := connectWith_preserves_cache s cenv
  have hc2 := closeWith_preserves_cache s b
  have hshape := healthCheckWith_cache_shape s henv
  have hgc := getConnectionWith_state s cenv reg
  have hens := gcEnsure_cases s cenv
  refine ⟨rfl, ?_, ?_, ?_, ?_, hshape⟩
  · unfold cacheConsistent
    rw [hc1.1, hc1.2]
    exact h
  · unfold cacheConsistent
    rw [hc2.1, hc2.2]
    exact h
  · rcases hshape with ⟨h1, h2⟩ | ⟨h1, h2⟩
    · unfold cacheConsistent
      rw [h1, h2]
      exact h
    · unfold cacheConsistent
      rw [h1, h2]
      rfl
  · rw [hgc]
    rcases hens with he | he
    · rw [he]
      exact h
    · rw [he]
      unfold cacheConsistent
      rw [hc1.1, hc1.2]
      exact h

theorem cache_invariant_preserved_witness :
    cacheConsistent (connectWith s0 envNoBackend).2.1 ∧
    cacheConsistent (healthCheckWith s0 hcEnvDown).2.1 ∧
    cacheConsistent (getConnectionWith s0 envNoBackend none).2 :=
  ⟨(cache_invariant_preserved s0 none envNoBackend false hcEnvDown none
      rfl).2.1,
   (cache_invariant_preserved s0 none envNoBackend false hcEnvDown none
      rfl).2.2.2.1,
   (cache_invariant_preserved s0 none envNoBackend false hcEnvDown none
      rfl).2.2.2.2.1⟩

/-- C10: the constructor never reads `opts.healthCheckInterval`, so
the guardian's `healthCheckInterval` stays at its default 15000 for
every options record; `connectionAttemptInterval` and
`healthCheckQuery` are adopted only when truthy, so the falsy values
`0` and `""` leave the defaults (15000 and "SELECT 1") in place; but
an explicit `false` for `connectionRequired` or
`unhealthyWithoutConnection` is honored, because those use a
`!== undefined` test. -/
theorem constructor_option_handling (o : MicroserviceORMOptions) :
    (mkMicroserviceORM (some o)).healthCheckInterval = 15000 ∧
    (o.connectionAttemptInterval = some 0 →
      (mkMicroserviceORM (some o)).connectionAttemptInterval = 15000) ∧
    (o.healthCheckQuery = some "" →
      (mkMicroserviceORM (some o)).healthCheckQuery = "SELECT 1") ∧
    (o.connectionRequired = some false →
      (mkMicroserviceORM (some o)).connectionRequired = false) ∧
    (o.unhealthyWithoutConnection = some false →
      (mkMicroserviceORM (some o)).unhealthyWithoutConnection = false) := by
  refine ⟨rfl, ?_, ?_, ?_, ?_⟩ <;> intro h <;>
    simp [mkMicroserviceORM, h]

theorem constructor_option_handling_witness :
    (mkMicroserviceORM (some optsIntervalOnly)).healthCheckInterval =
      15000 ∧
    (mkMicroserviceORM (some optsIntervalOnly)).connectionAttemptInterval =
      15000 ∧
    (mkMicroserviceORM (some optsIntervalOnly)).healthCheckQuery =
      "SELECT 1" ∧
    (mkMicroserviceORM (some optsIntervalOnly)).connectionRequired =
      false ∧
    (mkMicroserviceORM (some optsIntervalOnly)).unhealthyWithoutConnection =
      false :=
  ⟨(constructor_option_handling optsIntervalOnly).1,
   (constructor_option_handling optsIntervalOnly).2.1 rfl,
   (constructor_option_handling optsIntervalOnly).2.2.1 rfl,
   (constructor_option_handling optsIntervalOnly).2.2.2.1 rfl,
   (constructor_option_handling optsIntervalOnly).2.2.2.2 rfl⟩

/-- C4 counterexample: a single-string `slaves` value is NOT always
normalized to a one-element sequence — the empty string is falsy, so
the `||` chain discards it before the `typeof` normalization ever
sees it: the replica list comes out empty and the resolver returns
single-host options instead of a one-replica replication topology. -/
theorem build_emptyString_slave_not_one_element :
    callCfgEmptySlave.slaves = some (.str "") ∧
    normalizedSlaves s0 (some callCfgEmptySlave) = [] ∧
    buildConnectionOptions s0 (some callCfgEmptySlave) =
      .single (outputBase s0 (some callCfgEmptySlave))
        { host := "db1", port := 3306, username := none,
          password := none, database := none } :=
  ⟨rfl, rfl, rfl⟩

/-- C4 (amended): with the normalized replica list empty,
`buildConnectionOptions` returns single-endpoint options with host =
the resolved master and the shared credential fields inlined; with N
≥ 1 replicas it returns replication options whose master endpoint and
N slave endpoints (in input order, hosts preserved) all carry the
identical shared `details` (port, username, password, database).  A
NONEMPTY single-string `slaves` value is normalized to a one-element
sequence; the empty string is falsy and treated as absent; absence
(with no stored config either) yields the empty sequence. -/
theorem build_topology (s : MicroserviceORM)
    (config : Option MicroserviceORMConfig) :
    (normalizedSlaves s config = [] →
      buildConnectionOptions s config =
        .single (outputBase s config)
          (mkEndpoint (masterHost s config) (detailsOf s config))) ∧
    (normalizedSlaves s config ≠ [] →
      buildConnectionOptions s config =
        .replication (outputBase s config)
          (mkEndpoint (masterHost s config) (detailsOf s config))
          ((normalizedSlaves s config).map
            (fun h => mkEndpoint h (detailsOf s config))) ∧
      ((normalizedSlaves s config).map
          (fun h => mkEndpoint h (detailsOf s config))).map
        Endpoint.host = normalizedSlaves s config ∧
      (∀ e ∈ (normalizedSlaves s config).map
          (fun h => mkEndpoint h (detailsOf s config)),
        e.port = (detailsOf s config).port ∧
        e.username = (detailsOf s config).username ∧
        e.password = (detailsOf s config).password ∧
        e.database = (detailsOf s config).database)) ∧
    (∀ (c : MicroserviceORMConfig) (x : String),
      c.slaves = some (.str x) → x ≠ "" →
      normalizedSlaves s (some c) = [x]) ∧
    (∀ c : MicroserviceORMConfig, c.slaves = none → s.config = none →
      normalizedSlaves s (some c) = []) := by
  refine ⟨?_, ?_, ?_, ?_⟩
  · intro h
    unfold buildConnectionOptions
    simp [h]
  · intro h
    refine ⟨?_, ?_, ?_⟩
    · unfold buildConnectionOptions
      simp [h]
    · rw [List.map_map]
      have hid :
          (Endpoint.host ∘ fun h => mkEndpoint h (detailsOf s config)) =
            id := rfl
      rw [hid, List.map_id]
    · intro e he
      simp [mkEndpoint] at he
      rcases he with ⟨x, _, he⟩
      rw [← he]
      simp [mkEndpoint]
  · intro c x hsl hx
    unfold normalizedSlaves slavesOr
    simp [hsl, StrOrList.truthy, hx, StrOrList.normalize]
  · intro c hsl hcfg
    unfold normalizedSlaves slavesOr slavesOrD
    simp [hsl, hcfg, StrOrList.normalize]

theorem build_topology_witness :
    buildConnectionOptions s0 (some replCfg) =
      .replication (outputBase s0 (some replCfg))
        (mkEndpoint "db1" (detailsOf s0 (some replCfg)))
        [mkEndpoint "db2" (detailsOf s0 (some replCfg)),
         mkEndpoint "db3" (detailsOf s0 (some replCfg))] ∧
    detailsOf s0 (some replCfg) =
      { port := 3306, username := some "u", password := some "p",
        database := some "app" } := by
  have h := (build_topology s0 (some replCfg)).2.1 (by decide)
  exact ⟨h.1, rfl⟩

/-- C5 counterexample: a value set in the per-call config does NOT
always override the stored default: the per-call `port` is explicitly
set to `0`, but `0` is falsy, so the `||` chain falls through to the
stored default 5432 — the claim would require the result port to be
the per-call value `0`. -/
theorem build_port_zero_does_not_override :
    callCfgPortZero.port = some 0 ∧
    sStored.config.bind (fun c => c.port) = some 5432 ∧
    (detailsOf sStored (some callCfgPortZero)).port = 5432 ∧
    buildConnectionOptions sStored (some callCfgPortZero) =
      .single (outputBase sStored (some callCfgPortZero))
        { host := "db1", port := 5432, username := some "su",
          password := some "sp", database := some "appdb" } :=
  ⟨rfl, rfl, rfl, rfl⟩

/-- C5 (amended): per-field precedence in `buildConnectionOptions`
holds for TRUTHY values: a truthy per-call value (nonzero port,
nonempty string; `type` is always truthy) overrides the stored
default, a truthy stored value overrides the hard-coded fallback
(port 3306, host "127.0.0.1", type "mysql"), and the fallback applies
when neither layer has a truthy value — but a set-yet-falsy per-call
value (`0` or `""`) is skipped exactly as if it were unset. -/
theorem build_precedence :
    (∀ (s : MicroserviceORM) (c : MicroserviceORMConfig) (p : Int),
      c.port = some p → p ≠ 0 → (detailsOf s (some c)).port = p) ∧
    (∀ (s : MicroserviceORM) (c : MicroserviceORMConfig),
      c.port = some 0 →
      (detailsOf s (some c)).port = (detailsOf s none).port) ∧
    (∀ (s : MicroserviceORM) (c : MicroserviceORMConfig) (u : String),
      c.username = some u → u ≠ "" →
      (detailsOf s (some c)).username = some u) ∧
    (∀ (s : MicroserviceORM) (c : MicroserviceORMConfig),
      c.username = some "" →
      (detailsOf s (some c)).username = (detailsOf s none).username) ∧
    (∀ (s : MicroserviceORM) (c : MicroserviceORMConfig) (pw : String),
      c.password = some pw → pw ≠ "" →
      (detailsOf s (some c)).password = some pw) ∧
    (∀ (s : MicroserviceORM) (c : MicroserviceORMConfig),
      c.password = some "" →
      (detailsOf s (some c)).password = (detailsOf s none).password) ∧
    (∀ (s : MicroserviceORM) (c : MicroserviceORMConfig) (db : String),
      c.database = some db → db ≠ "" →
      (detailsOf s (some c)).database = some db) ∧
    (∀ (s : MicroserviceORM) (c : MicroserviceORMConfig),
      c.database = some "" →
      (detailsOf s (some c)).database = (detailsOf s none).database) ∧
    (∀ (s : MicroserviceORM) (c : MicroserviceORMConfig),
      c.master ≠ "" → masterHost s (some c) = c.master) ∧
    (∀ (s : MicroserviceORM) (c : MicroserviceORMConfig),
      c.master = "" → masterHost s (some c) = masterHost s none) ∧
    (∀ (s : MicroserviceORM) (c : MicroserviceORMConfig),
      typeOf s (some c) = c.type) ∧
    (∀ (s : MicroserviceORM) (c : MicroserviceORMConfig)
      (v : StrOrList), c.slaves = some v → v.truthy = true →
      normalizedSlaves s (some c) = v.normalize) ∧
    (∀ (s : MicroserviceORM) (c : MicroserviceORMConfig),
      c.slaves = some (.str "") →
      normalizedSlaves s (some c) = normalizedSlaves s none) ∧
    (∀ (s : MicroserviceORM) (d : MicroserviceORMConfig) (p : Int),
      s.config = some d → d.port = some p → p ≠ 0 →
      (detailsOf s none).port = p) ∧
    (∀ (s : MicroserviceORM) (d : MicroserviceORMConfig) (u : String),
      s.config = some d → d.username = some u → u ≠ "" →
      (detailsOf s none).username = some u) ∧
    (∀ (s : MicroserviceORM) (d : MicroserviceORMConfig),
      s.config = some d → d.master ≠ "" →
      masterHost s none = d.master) ∧
    (∀ (s : MicroserviceORM) (d : MicroserviceORMConfig),
      s.config = some d → typeOf s none = d.type) ∧
    (∀ s : MicroserviceORM, s.config = none →
      detailsOf s none =
        { port := 3306, username := none, password := none,
          database := none } ∧
      masterHost s none = "127.0.0.1" ∧ typeOf s none = DBType.mysql ∧
      normalizedSlaves s none = []) := by
  refine ⟨?_, ?_, ?_, ?_, ?_, ?_, ?_, ?_, ?_, ?_, ?_, ?_, ?_, ?_, ?_,
    ?_, ?_, ?_⟩
  · intro s c p hp hne
    simp [detailsOf, intOr3, hp, hne]
  · intro s c hp
    simp [detailsOf, intOr3, hp]
  · intro s c u hu hne
    simp [detailsOf, strOr2, hu, hne]
  · intro s c hu
    simp [detailsOf, strOr2, hu]
  · intro s c pw hpw hne
    simp [detailsOf, strOr2, hpw, hne]
  · intro s c hpw
    simp [detailsOf, strOr2, hpw]
  · intro s c db hdb hne
    simp [detailsOf, strOr2, hdb, hne]
  · intro s c hdb
    simp [detailsOf, strOr2, hdb]
  · intro s c hm
    simp [masterHost, strOr3, strOr2, hm]
  · intro s c hm
    simp [masterHost, strOr3, strOr2, hm]
  · intro s c
    simp [typeOf, typeOr]
  · intro s c v hv ht
    simp [normalizedSlaves, slavesOr, hv, ht]
  · intro s c hv
    simp [normalizedSlaves, slavesOr, slavesOrD, hv, StrOrList.truthy]
  · intro s d p hc hp hne
    simp [detailsOf, intOr3, intOr2, hc, hp, hne]
  · intro s d u hc hu hne
    simp [detailsOf, strOr2, hc, hu, hne]
  · intro s d hc hm
    simp [masterHost, strOr3, strOr2, hc, hm]
  · intro s d hc
    simp [typeOf, typeOr, hc]
  · intro s hc
    refine ⟨?_, ?_, ?_, ?_⟩ <;>
      simp [detailsOf, masterHost, typeOf, normalizedSlaves, intOr3,
        intOr2, strOr2, strOr3, typeOr, slavesOr, slavesOrD, hc,
        StrOrList.normalize]

theorem build_precedence_witness :
    (detailsOf sStored (some replCfg)).port = 3306 ∧
    masterHost sStored (some replCfg) = "db1" ∧
    typeOf sStored (some replCfg) = DBType.mysql ∧
    (detailsOf sStored none).port = 5432 ∧
    detailsOf s0 none =
      { port := 3306, username := none, password := none,
        database := none } := by
  obtain ⟨h1, h2, h3, h4, h5, h6, h7, h8, h9, h10, h11, h12, h13, h14,
    h15, h16, h17, h18⟩ := build_precedence
  exact ⟨h1 sStored replCfg 3306 rfl (by decide),
    h9 sStored replCfg (by decide), h11 sStored replCfg,
    h14 sStored storedCfg 5432 rfl rfl (by decide),
    (h18 s0 rfl).1⟩
